import Mathlib

/-!
Verification of the IPL3 boot hand-off core (Stage 2 flat-binary loader and
Stage 3 cleanup) of libdragon, shallowly embedded from
`src/boot/loader_compat.c`, `src/boot/cleanup.c` and `src/boot/loader.h`.

The CPU code is straight-line with busy-wait loops, so it is embedded as the
trace of hardware-register events it performs, parameterised by the values the
code reads from the cartridge header and the boot-flags word.  Machine
integers are `Nat` with explicit reduction modulo `2^32` where C unsigned
arithmetic can wrap.  The semantics of the RSP DMA engine (hardware, not part
of the repository source) is modelled from the spec where needed.
-/

/-- `LOADER_SIZE` from `src/boot/loader.h`. -/
def LOADER_SIZE : Nat := 32 * 1024

/-- `TOTAL_RESERVED_SIZE` from `src/boot/loader.h`. -/
def TOTAL_RESERVED_SIZE : Nat := LOADER_SIZE

/-- Reduction modulo `2^32`, the value of a C `uint32_t` expression. -/
def u32 (n : Nat) : Nat := n % 4294967296

/-- C `uint32_t` subtraction `a - b` (wrapping modulo `2^32`). -/
def usub (a b : Nat) : Nat := (a + (4294967296 - b % 4294967296)) % 4294967296

/-- The bound `(8<<20) - (entrypoint & 0x1FFFFFFF) - TOTAL_RESERVED_SIZE`
computed (in `uint32_t` arithmetic) by `stage2` in `src/boot/loader_compat.c`
line 41. -/
def stage2_max_size (entrypoint : Nat) : Nat :=
  usub (usub (8 * 1024 * 1024) (entrypoint &&& 0x1FFFFFFF)) TOTAL_RESERVED_SIZE

/-- The effective transfer size selected by `stage2`
(`src/boot/loader_compat.c` lines 40-42): `size` is replaced by the 1 MiB
fallback `1<<20` when it is zero or exceeds `stage2_max_size`. -/
def stage2_effective_size (entrypoint size : Nat) : Nat :=
  if size = 0 ∨ stage2_max_size entrypoint < size then 1024 * 1024 else size

/-- Hardware-register events performed by the boot code, in program order.
Poll loops are abstracted as single poll events (`piPollIdle` = poll
`PI_STATUS` until neither DMA-busy nor IO-busy; `spPollNotFull` = poll
`SP_DMA_FULL` until clear; `spPollIdle` = poll `SP_DMA_BUSY` until clear).
`siWrite off v` is `si_write(off, v)`, `siWait` is `si_wait()`, `readWord a`
is a 32-bit uncached read from address `a`, `setStack v` is the `move $sp`
instruction, and `jump a` is the final indirect jump. -/
inductive Event where
  | piPollIdle : Event
  | piSetDram : Nat → Event
  | piSetCart : Nat → Event
  | piSetWrLen : Nat → Event
  | rcpReset : Event
  | siWrite : Nat → Nat → Event
  | readWord : Nat → Event
  | cacheReset : Event
  | spPollNotFull : Event
  | spSetRsp : Nat → Event
  | spSetDram : Nat → Event
  | spSetWrLen : Nat → Event
  | spSetRdLen : Nat → Event
  | siWait : Event
  | spPollIdle : Event
  | setStack : Nat → Event
  | jump : Nat → Event
deriving DecidableEq, Repr

/-- Event trace of `pi_read_async(dram_addr, cart_addr, len)`
(`src/boot/loader_compat.c` lines 23-29): poll `PI_STATUS` until idle, then
program `PI_DRAM_ADDR`, `PI_CART_ADDR` and `PI_WR_LEN = len - 1`; it returns
without waiting for the transfer to finish. -/
def pi_read_async_trace (dram cart len : Nat) : List Event :=
  [Event.piPollIdle, Event.piSetDram (u32 dram), Event.piSetCart (u32 cart),
   Event.piSetWrLen (usub len 1)]

/-- Event trace of `stage2` (`src/boot/loader_compat.c` lines 36-52) up to the
tail-call into `stage3`, given the header words `entrypoint` (read from
`0x10000008`) and `size` (read from `0x10000010`). -/
def stage2_trace (entrypoint size : Nat) : List Event :=
  [Event.readWord 0x10000008, Event.readWord 0x10000010]
  ++ pi_read_async_trace entrypoint 0x10001000
       (stage2_effective_size entrypoint size)
  ++ [Event.piPollIdle, Event.rcpReset]

/-- The `SP_WR_LEN` control word `(((TOTAL_RESERVED_SIZE >> 10) - 1) << 12) |
(1024-1)` programmed by `stage3` (`src/boot/cleanup.c` line 61). -/
def SP_WR_LEN_WORD : Nat :=
  (((TOTAL_RESERVED_SIZE >>> 10) - 1) <<< 12) ||| (1024 - 1)

/-- Event trace of `stage3` (`src/boot/cleanup.c` lines 38-92), for the normal
build (`compat = false`) and the COMPAT build (`compat = true`), given the
memory size word `memsize` and the entrypoint argument. -/
def stage3_trace (compat : Bool) (memsize entrypoint : Nat) : List Event :=
  (if compat then [Event.readWord 0x80000318]
   else [Event.siWrite 0x7FC 0x8, Event.readWord 0xA4000000])
  ++ [Event.cacheReset,
      Event.spPollNotFull, Event.spSetRsp 0xA4001000,
      Event.spSetDram (usub memsize TOTAL_RESERVED_SIZE),
      Event.spSetWrLen SP_WR_LEN_WORD,
      Event.spPollNotFull, Event.spSetDram 0x00802000]
  ++ (if compat then [Event.spSetRsp 0xA4000000, Event.spSetRdLen (4096 - 1)]
      else [Event.spSetRsp 0xA4000010, Event.spSetRdLen (4096 - 16 - 1),
            Event.siWait])
  ++ [Event.spPollIdle]
  ++ (if compat then []
      else [Event.setStack (u32 (0x80000000 + memsize - 0x10))])
  ++ [Event.jump entrypoint]

/-- Full event trace of the core: `stage2` chaining into `stage3` with the
same entrypoint. -/
def boot_trace (compat : Bool) (entrypoint size memsize : Nat) : List Event :=
  stage2_trace entrypoint size ++ stage3_trace compat memsize entrypoint

/-- Cartridge-bus transfers issued along a trace: each `piSetWrLen` event
records `(PI_DRAM_ADDR, PI_CART_ADDR, PI_WR_LEN)` as last programmed. -/
def piTransfers : List Event → Nat → Nat → List (Nat × Nat × Nat)
  | [], _, _ => []
  | Event.piSetDram a :: r, _, c => piTransfers r a c
  | Event.piSetCart a :: r, d, _ => piTransfers r d a
  | Event.piSetWrLen v :: r, d, c => (d, c, v) :: piTransfers r d c
  | _ :: r, d, c => piTransfers r d c

/-- Byte lengths of the cartridge-bus transfers issued along a trace: the PI
engine transfers `PI_WR_LEN + 1` bytes (32-bit register). -/
def piTransferLens (tr : List Event) : List Nat :=
  (piTransfers tr 0 0).map (fun t => u32 (t.2.2 + 1))

/-- Coprocessor-bus RAM-write transfers issued along a trace: each
`spSetWrLen` event records `(SP_DRAM_ADDR, SP_WR_LEN)` as last programmed. -/
def spWrIssues : List Event → Nat → List (Nat × Nat)
  | [], _ => []
  | Event.spSetDram a :: r, _ => spWrIssues r a
  | Event.spSetWrLen w :: r, d => (d, w) :: spWrIssues r d
  | _ :: r, d => spWrIssues r d

/-- Values written to the stack pointer along a trace. -/
def stackSets : List Event → List Nat
  | [] => []
  | Event.setStack v :: r => v :: stackSets r
  | _ :: r => stackSets r

/-- Marker extraction for the operation ordering of C5: keeps the load issue
(`piSetWrLen`), the cache reset, the two coprocessor-bus clear issues
(`spSetWrLen`, `spSetRdLen`), the supervisory drain (`siWait`), the stack
setup and the final jump; drops everything else. -/
def c5Marker : Event → Option Event
  | Event.piSetWrLen v => some (Event.piSetWrLen v)
  | Event.cacheReset => some Event.cacheReset
  | Event.spSetWrLen v => some (Event.spSetWrLen v)
  | Event.spSetRdLen v => some (Event.spSetRdLen v)
  | Event.siWait => some Event.siWait
  | Event.setStack v => some (Event.setStack v)
  | Event.jump a => some (Event.jump a)
  | _ => none

/-- Marker extraction for the supervisory-mailbox protocol of C7: keeps
serial-peripheral writes, `siWait`, and the final jump. -/
def c7Marker : Event → Option Event
  | Event.siWrite o v => some (Event.siWrite o v)
  | Event.siWait => some Event.siWait
  | Event.jump a => some (Event.jump a)
  | _ => none

/-- Strict single-outstanding discipline: scanning the trace, a descriptor may
be issued to an engine (PI: `piSetWrLen`; SP: `spSetWrLen`/`spSetRdLen`) only
when that engine has reported IDLE (`piPollIdle` / `spPollIdle`) since its
previous issue.  `piOut`/`spOut` record whether an issue is outstanding
without an intervening idle report. -/
def singleOutstanding : List Event → Bool → Bool → Bool
  | [], _, _ => true
  | Event.piPollIdle :: r, _, spOut => singleOutstanding r false spOut
  | Event.spPollIdle :: r, piOut, _ => singleOutstanding r piOut false
  | Event.piSetWrLen _ :: r, piOut, spOut =>
      !piOut && singleOutstanding r true spOut
  | Event.spSetWrLen _ :: r, piOut, spOut =>
      !spOut && singleOutstanding r piOut true
  | Event.spSetRdLen _ :: r, piOut, spOut =>
      !spOut && singleOutstanding r piOut true
  | _ :: r, piOut, spOut => singleOutstanding r piOut spOut

/-- PI discipline actually followed by the code: every cartridge-bus issue is
preceded by a PI idle poll with no earlier PI issue in between.  The flag
records whether PI has reported idle since the last PI issue. -/
def piDiscipline : List Event → Bool → Bool
  | [], _ => true
  | Event.piPollIdle :: r, _ => piDiscipline r true
  | Event.piSetWrLen _ :: r, ok => ok && piDiscipline r false
  | _ :: r, ok => piDiscipline r ok

/-- SP discipline actually followed by the code: every coprocessor-bus issue
is preceded by a `SP_DMA_FULL`-clear poll (queue not full) with no earlier SP
issue in between. -/
def spQueueDiscipline : List Event → Bool → Bool
  | [], _ => true
  | Event.spPollNotFull :: r, _ => spQueueDiscipline r true
  | Event.spPollIdle :: r, _ => spQueueDiscipline r true
  | Event.spSetWrLen _ :: r, ok => ok && spQueueDiscipline r false
  | Event.spSetRdLen _ :: r, ok => ok && spQueueDiscipline r false
  | _ :: r, ok => spQueueDiscipline r ok

/-- The SP engine is confirmed fully idle (`spPollIdle`, i.e. `SP_DMA_BUSY`
clear, not merely the queue not full) before every stack-pointer set and
before every final jump: `busy` records whether an SP issue has happened with
no `spPollIdle` after it. -/
def spIdleBeforeHandoff : List Event → Bool → Bool
  | [], _ => true
  | Event.spSetWrLen _ :: r, _ => spIdleBeforeHandoff r true
  | Event.spSetRdLen _ :: r, _ => spIdleBeforeHandoff r true
  | Event.spPollIdle :: r, _ => spIdleBeforeHandoff r false
  | Event.setStack _ :: r, busy => !busy && spIdleBeforeHandoff r busy
  | Event.jump _ :: r, busy => !busy && spIdleBeforeHandoff r busy
  | _ :: r, busy => spIdleBeforeHandoff r busy

/-- The three PI DMA registers programmed by `pi_read_async`. -/
structure PIRegs where
  dramAddr : Nat
  cartAddr : Nat
  wrLen : Nat
deriving DecidableEq, Repr

/-- Modelled from the spec: `PI_STATUS` DMA-busy flag (the bit-mask constants
live in `minidragon.h`, which is not part of the provided sources; the spec
only requires two distinct busy flags). -/
def PI_STATUS_DMA_BUSY : Nat := 1

/-- Modelled from the spec: `PI_STATUS` IO-busy flag. -/
def PI_STATUS_IO_BUSY : Nat := 2

/-- The poll loop `while (*PI_STATUS & (PI_STATUS_DMA_BUSY |
PI_STATUS_IO_BUSY)) {}` of `src/boot/loader_compat.c`, over an oracle
`status` giving the value of the k-th `PI_STATUS` read.  Returns the index of
the first idle read, with fuel bounding the number of polls (the C loop is
unbounded; a hung engine is an infinite loop, here `none`). -/
def pi_poll_idle (status : Nat → Nat) : Nat → Nat → Option Nat
  | 0, _ => none
  | fuel + 1, k =>
      if status k &&& (PI_STATUS_DMA_BUSY ||| PI_STATUS_IO_BUSY) ≠ 0 then
        pi_poll_idle status fuel (k + 1)
      else some k

/-- Register-level model of `pi_read_async(dram_addr, cart_addr, len)`
(`src/boot/loader_compat.c` lines 23-29): poll `PI_STATUS` to idle, then
program the three registers (`PI_WR_LEN = len - 1`) and return immediately.
Returns the number of the idle poll together with the programmed registers,
or `none` when the engine never reports idle within `fuel` polls. -/
def pi_read_async_regs (status : Nat → Nat) (fuel dram cart len : Nat) :
    Option (Nat × PIRegs) :=
  match pi_poll_idle status fuel 0 with
  | none => none
  | some k => some (k, ⟨u32 dram, u32 cart, usub len 1⟩)

/-- A concrete `PI_STATUS` oracle: busy for the first two reads, then idle. -/
def piStatus0 : Nat → Nat := fun k => if k < 2 then 1 else 0

/-- Memory state touched by the Stage 3 clear sequence: RDRAM bytes and the
two 4 KiB RSP memories (DMEM, IMEM), each byte-addressed. -/
structure Mem where
  rdram : Nat → Nat
  dmem : Nat → Nat
  imem : Nat → Nat

/-- Modelled from the spec: total byte count decoded by the RSP DMA engine
from an `SP_WR_LEN`/`SP_RD_LEN` control word, "(whole-1024-blocks,
remainder-1) packed into one control word" — the row count minus one sits in
bits 12-19 and the row length minus one in bits 0-11. -/
def sp_dma_decode_bytes (w : Nat) : Nat :=
  ((w >>> 12) % 256 + 1) * (w % 4096 + 1)

/-- Byte `i` of an RSP-side DMA source: bit 12 of the RSP address selects
IMEM (`0xA4001000`) versus DMEM (`0xA4000000`); the offset wraps inside the
4 KiB memory. -/
def rspRead (m : Mem) (rspAddr i : Nat) : Nat :=
  if (rspAddr >>> 12) % 2 = 1 then m.imem ((rspAddr % 4096 + i) % 4096)
  else m.dmem ((rspAddr % 4096 + i) % 4096)

/-- Modelled from the spec: effect of an `SP_WR_LEN` submission (RSP memory →
RDRAM): the decoded number of bytes is copied from the RSP-side source to
consecutive RDRAM bytes starting at `dramAddr` ("copy length bytes from a
source region ... into ram_dest"). -/
def spWrDMA (m : Mem) (rspAddr dramAddr w : Nat) : Mem :=
  { m with rdram := fun a =>
      if dramAddr ≤ a ∧ a < dramAddr + sp_dma_decode_bytes w then
        rspRead m rspAddr (a - dramAddr)
      else m.rdram a }

/-- Modelled from the spec: effect of an `SP_RD_LEN` submission (RDRAM → RSP
memory): the decoded number of bytes is copied from consecutive RDRAM bytes
starting at `dramAddr` into the selected RSP memory starting at the RSP-side
offset (no transfer in this code wraps past the 4 KiB boundary). -/
def spRdDMA (m : Mem) (rspAddr dramAddr w : Nat) : Mem :=
  if (rspAddr >>> 12) % 2 = 1 then
    { m with imem := fun a =>
        if rspAddr % 4096 ≤ a ∧ a < rspAddr % 4096 + sp_dma_decode_bytes w then
          m.rdram (dramAddr + (a - rspAddr % 4096))
        else m.imem a }
  else
    { m with dmem := fun a =>
        if rspAddr % 4096 ≤ a ∧ a < rspAddr % 4096 + sp_dma_decode_bytes w then
          m.rdram (dramAddr + (a - rspAddr % 4096))
        else m.dmem a }

/-- Memory effect of the Stage 3 clear sequence (`src/boot/cleanup.c` lines
54-78): first the reserved-region clear (IMEM → top of RDRAM,
`SP_RSP_ADDR = 0xA4001000`, `SP_DRAM_ADDR = memsize - TOTAL_RESERVED_SIZE`,
`SP_WR_LEN = SP_WR_LEN_WORD`), then the DMEM clear (RDRAM `0x00802000` →
DMEM; normal build: DMEM `0x10`, `4096-16` bytes; COMPAT build: DMEM `0`,
`4096` bytes). -/
def stage3_mem (compat : Bool) (memsize : Nat) (m : Mem) : Mem :=
  let m1 := spWrDMA m 0xA4001000 (usub memsize TOTAL_RESERVED_SIZE)
              SP_WR_LEN_WORD
  if compat then spRdDMA m1 0xA4000000 0x00802000 (4096 - 1)
  else spRdDMA m1 0xA4000010 0x00802000 (4096 - 16 - 1)

/-- A concrete pre-state for witnesses: RDRAM is 7 below `0x802000` and 0 at
and above it (the guaranteed-empty source), DMEM is 7 everywhere, IMEM (the
clear source) is 0 everywhere. -/
def mem0 : Mem :=
  { rdram := fun a => if 0x802000 ≤ a then 0 else 7
    dmem := fun _ => 7
    imem := fun _ => 0 }

theorem stage2_effective_size_bounds (e s : Nat) (hs : s < 4294967296) :
    1 ≤ stage2_effective_size e s ∧ stage2_effective_size e s < 4294967296 := by
  unfold stage2_effective_size
  split
  · exact ⟨by norm_num, by norm_num⟩
  · rename_i h
    push_neg at h
    exact ⟨Nat.one_le_iff_ne_zero.mpr h.1, hs⟩

/-- C1: for every header with declared size `s` and entry address `e`, the
effective cartridge-DMA transfer size used by `stage2` is the 1 MiB fallback
when `s = 0` or `s` exceeds `(8 MiB - (e & 0x1FFFFFFF) - TOTAL_RESERVED_SIZE)`
(computed in wrapping `uint32_t` arithmetic, as the code does), and is `s`
exactly otherwise. -/
theorem c1_size_clamp (e s : Nat) (hs : s < 4294967296) :
    piTransferLens (stage2_trace e s) =
      [if s = 0 ∨
          usub (usub (8 * 1024 * 1024) (e &&& 0x1FFFFFFF)) TOTAL_RESERVED_SIZE
            < s
       then 1024 * 1024 else s] := by
  have hb := stage2_effective_size_bounds e s hs
  have h1 : piTransferLens (stage2_trace e s) =
      [u32 (usub (stage2_effective_size e s) 1 + 1)] := rfl
  have h2 : u32 (usub (stage2_effective_size e s) 1 + 1) =
      stage2_effective_size e s := by
    simp only [u32, usub]
    omega
  rw [h1, h2]
  rfl

/-- Witness for C1 at the concrete header `entry = 0x80100000, size = 0`. -/
theorem c1_size_clamp_witness :
    piTransferLens (stage2_trace 0x80100000 0) = [1024 * 1024] := by
  rw [c1_size_clamp 0x80100000 0 (by norm_num)]
  simp

/-- C2: `stage2` issues exactly one cartridge-bus transfer, with RAM
destination the header entry address, cartridge source the fixed payload
offset `0x10001000`, and `PI_WR_LEN` programmed to the effective size minus
one; in particular for `entry = 0x80100000, size = 0` the single transfer
descriptor is `(0x80100000, 0x10001000, 1 MiB - 1)`. -/
theorem c2_one_transfer (e s : Nat) (he : e < 4294967296)
    (hs : s < 4294967296) :
    piTransfers (stage2_trace e s) 0 0 =
      [(e, 0x10001000, stage2_effective_size e s - 1)]
    ∧ piTransfers (stage2_trace 0x80100000 0) 0 0 =
      [(0x80100000, 0x10001000, 1024 * 1024 - 1)] := by
  constructor
  · have hb := stage2_effective_size_bounds e s hs
    have h1 : piTransfers (stage2_trace e s) 0 0 =
        [(u32 e, u32 0x10001000, usub (stage2_effective_size e s) 1)] := rfl
    have he2 : u32 e = e := Nat.mod_eq_of_lt he
    have hc : u32 0x10001000 = 0x10001000 := by norm_num [u32]
    have hlen : usub (stage2_effective_size e s) 1 =
        stage2_effective_size e s - 1 := by
      simp only [usub]
      omega
    rw [h1, he2, hc, hlen]
  · decide

/-- Witness for C2 at the concrete header `entry = 0x80100000, size = 0`. -/
theorem c2_one_transfer_witness :
    piTransfers (stage2_trace 0x80100000 0) 0 0 =
      [(0x80100000, 0x10001000,
        stage2_effective_size 0x80100000 0 - 1)] :=
  (c2_one_transfer 0x80100000 0 (by norm_num) (by norm_num)).1

/-- C4 counterexample: in the normal-variant execution (concrete header
`entry = 0x80100000, size = 0`, `memsize = 8 MiB`) the strict per-engine
single-outstanding discipline is violated: the second coprocessor-bus
descriptor (`SP_RD_LEN`) is issued after only a `SP_DMA_FULL` (not-full)
poll, with no `SP_DMA_BUSY` idle poll since the previous `SP_WR_LEN`
descriptor. -/
theorem c4_counterexample :
    singleOutstanding (boot_trace false 0x80100000 0 (8 * 1024 * 1024))
      false false = false := by
  decide

/-- C4 amended: in every execution of the core (both variants), a
cartridge-bus descriptor is never issued before the PI engine reports idle
for its previous descriptor; a coprocessor-bus descriptor is never issued
before the SP engine reports not-full (its queue has room) since the previous
SP descriptor; and the SP engine is confirmed fully idle (`SP_DMA_BUSY`
clear, not merely not-full) before the stack pointer is set and before the
final jump. -/
theorem c4_amended_discipline (c : Bool) (e s m : Nat) :
    piDiscipline (boot_trace c e s m) false = true
    ∧ spQueueDiscipline (boot_trace c e s m) false = true
    ∧ spIdleBeforeHandoff (boot_trace c e s m) false = true := by
  cases c <;> exact ⟨rfl, rfl, rfl⟩

/-- C5: in the normal variant the operations occur in exactly the relative
order load, cache reset, clear reserved RAM region, clear scratch memory
except the preserved sub-region, drain supervisory completion signal, set
stack pointer, jump; in the compatibility variant the reduced sequence omits
the supervisory drain and the stack setup and clears all 4096 bytes of
scratch memory. -/
theorem c5_operation_order (e s m : Nat) :
    (boot_trace false e s m).filterMap c5Marker =
      [Event.piSetWrLen (usub (stage2_effective_size e s) 1),
       Event.cacheReset, Event.spSetWrLen SP_WR_LEN_WORD,
       Event.spSetRdLen (4096 - 16 - 1), Event.siWait,
       Event.setStack (u32 (0x80000000 + m - 0x10)), Event.jump e]
    ∧ (boot_trace true e s m).filterMap c5Marker =
      [Event.piSetWrLen (usub (stage2_effective_size e s) 1),
       Event.cacheReset, Event.spSetWrLen SP_WR_LEN_WORD,
       Event.spSetRdLen (4096 - 1), Event.jump e] :=
  ⟨rfl, rfl⟩

/-- C7: the normal variant writes command `0x8` to serial-peripheral mailbox
offset `0x7FC` exactly once, before the final jump, and then drains the
completion signal (`siWait`) before the jump; the compatibility variant never
performs this write. -/
theorem c7_si_mailbox (e s m : Nat) :
    (boot_trace false e s m).filterMap c7Marker =
      [Event.siWrite 0x7FC 0x8, Event.siWait, Event.jump e]
    ∧ (boot_trace true e s m).filterMap c7Marker = [Event.jump e] :=
  ⟨rfl, rfl⟩

/-- C8: in the normal variant, for every memory size `m` read from the
boot-flags word, the stack pointer established before the jump equals
`0x80000000 + m - 0x10`, independent of the entry address and declared
size. -/
theorem c8_stack_pointer (m e s : Nat) (hm : m ≤ 2147483648) :
    stackSets (boot_trace false e s m) = [0x80000000 + m - 0x10] := by
  have h : stackSets (boot_trace false e s m) =
      [u32 (0x80000000 + m - 0x10)] := rfl
  rw [h]
  simp only [u32]
  rw [Nat.mod_eq_of_lt (by omega)]

/-- Witness for C8 at `memsize = 8 MiB`, `entry = 0x80000400`. -/
theorem c8_stack_pointer_witness :
    stackSets (boot_trace false 0x80000400 0 (8 * 1024 * 1024)) =
      [0x80000000 + 8 * 1024 * 1024 - 0x10] :=
  c8_stack_pointer (8 * 1024 * 1024) 0x80000400 0 (by norm_num)

/-- C6: `TOTAL_RESERVED_SIZE` is a multiple of 1024 (the condition of the
compile-time `_Static_assert` in `src/boot/cleanup.c`), and the
reserved-region clear programs `SP_DRAM_ADDR = memsize - TOTAL_RESERVED_SIZE`
with control word `(((TOTAL_RESERVED_SIZE/1024) - 1) << 12) | (1024 - 1)`,
whose (blocks, remainder-1) decoding covers exactly `TOTAL_RESERVED_SIZE`
bytes. -/
theorem c6_reserved_clear_encoding (c : Bool) (e s m : Nat)
    (h1 : TOTAL_RESERVED_SIZE ≤ m) (h2 : m < 4294967296) :
    TOTAL_RESERVED_SIZE % 1024 = 0
    ∧ spWrIssues (boot_trace c e s m) 0 =
        [(m - TOTAL_RESERVED_SIZE,
          (((TOTAL_RESERVED_SIZE >>> 10) - 1) <<< 12) ||| (1024 - 1))]
    ∧ sp_dma_decode_bytes SP_WR_LEN_WORD = TOTAL_RESERVED_SIZE := by
  refine ⟨by decide, ?_, by decide⟩
  have ha : spWrIssues (boot_trace c e s m) 0 =
      [(usub m TOTAL_RESERVED_SIZE, SP_WR_LEN_WORD)] := by
    cases c <;> rfl
  have hb : usub m TOTAL_RESERVED_SIZE = m - TOTAL_RESERVED_SIZE := by
    have hT : TOTAL_RESERVED_SIZE = 32768 := rfl
    rw [hT] at h1 ⊢
    simp only [usub]
    omega
  rw [ha, hb]
  rfl

/-- Witness for C6 at `memsize = 8 MiB` (normal variant). -/
theorem c6_reserved_clear_encoding_witness :
    spWrIssues (boot_trace false 0x80000400 0 (8 * 1024 * 1024)) 0 =
      [(8 * 1024 * 1024 - TOTAL_RESERVED_SIZE,
        (((TOTAL_RESERVED_SIZE >>> 10) - 1) <<< 12) ||| (1024 - 1))] :=
  (c6_reserved_clear_encoding false 0x80000400 0 (8 * 1024 * 1024)
    (by decide) (by decide)).2.1

theorem pi_poll_idle_spec (status : Nat → Nat) :
    ∀ fuel start k, pi_poll_idle status fuel start = some k →
      start ≤ k
      ∧ status k &&& (PI_STATUS_DMA_BUSY ||| PI_STATUS_IO_BUSY) = 0
      ∧ ∀ j, start ≤ j → j < k →
          status j &&& (PI_STATUS_DMA_BUSY ||| PI_STATUS_IO_BUSY) ≠ 0 := by
  intro fuel
  induction fuel with
  | zero =>
    intro start k h
    simp [pi_poll_idle] at h
  | succ f ih =>
    intro start k h
    simp only [pi_poll_idle] at h
    by_cases hb : status start &&& (PI_STATUS_DMA_BUSY ||| PI_STATUS_IO_BUSY) ≠ 0
    · rw [if_pos hb] at h
      obtain ⟨ha, h2, h3⟩ := ih (start + 1) k h
      refine ⟨by omega, h2, fun j hj1 hj2 => ?_⟩
      rcases Nat.eq_or_lt_of_le hj1 with he | hlt
      · rw [← he]
        exact hb
      · exact h3 j hlt hj2
    · rw [if_neg hb] at h
      injection h with h
      push_neg at hb
      subst h
      exact ⟨Nat.le_refl _, hb, fun j hj1 hj2 => absurd hj1 (by omega)⟩

/-- C9: `pi_read_async(ram_dest, cart_src, length)` first polls `PI_STATUS`
until the engine reports neither DMA-busy nor IO-busy (every earlier poll saw
a busy flag), then programs `PI_DRAM_ADDR`, `PI_CART_ADDR` and
`PI_WR_LEN = length - 1`, and returns without waiting for the transfer to
complete (no further poll after the register writes in its trace). -/
theorem c9_pi_read_async (status : Nat → Nat) (fuel d c l k : Nat)
    (h : pi_poll_idle status fuel 0 = some k) :
    pi_read_async_regs status fuel d c l =
      some (k, ⟨u32 d, u32 c, usub l 1⟩)
    ∧ status k &&& (PI_STATUS_DMA_BUSY ||| PI_STATUS_IO_BUSY) = 0
    ∧ (∀ j, j < k →
        status j &&& (PI_STATUS_DMA_BUSY ||| PI_STATUS_IO_BUSY) ≠ 0)
    ∧ pi_read_async_trace d c l =
        [Event.piPollIdle, Event.piSetDram (u32 d), Event.piSetCart (u32 c),
         Event.piSetWrLen (usub l 1)] := by
  obtain ⟨-, h2, h3⟩ := pi_poll_idle_spec status fuel 0 k h
  refine ⟨?_, h2, fun j hj => h3 j (Nat.zero_le j) hj, rfl⟩
  simp [pi_read_async_regs, h]

/-- Witness for C9 with a concrete status oracle that is busy twice and then
idle. -/
theorem c9_pi_read_async_witness :
    pi_read_async_regs piStatus0 5 11 22 33 =
      some (2, ⟨u32 11, u32 22, usub 33 1⟩)
    ∧ piStatus0 2 &&& (PI_STATUS_DMA_BUSY ||| PI_STATUS_IO_BUSY) = 0 := by
  have h := c9_pi_read_async piStatus0 5 11 22 33 2 (by decide)
  exact ⟨h.1, h.2.1⟩

/-- C10 counterexample: the claim that for every wrapping header every
nonzero declared size is kept is false: at `entry = 0x9FFFFFFF` (so
`(entry & 0x1FFFFFFF) + TOTAL_RESERVED_SIZE > 8 MiB`) the declared size
`0xFFFFFFFF` is nonzero yet the 1 MiB fallback is applied. -/
theorem c10_counterexample :
    8 * 1024 * 1024 < (0x9FFFFFFF &&& 0x1FFFFFFF) + TOTAL_RESERVED_SIZE
    ∧ (0xFFFFFFFF : Nat) ≠ 0
    ∧ stage2_effective_size 0x9FFFFFFF 0xFFFFFFFF = 1024 * 1024
    ∧ stage2_effective_size 0x9FFFFFFF 0xFFFFFFFF ≠ 0xFFFFFFFF := by
  decide

/-- C10 amended: for every header whose entry address satisfies
`(entry & 0x1FFFFFFF) + TOTAL_RESERVED_SIZE > 8 MiB`, the bound
`(8<<20) - (entry & 0x1FFFFFFF) - TOTAL_RESERVED_SIZE` wraps modulo `2^32` to
a value above `0xE0000000`, so every nonzero declared size not exceeding that
wrapped bound — in particular every size below `0xE0000000` — is kept
unchanged (no 1 MiB fallback), even though it exceeds the available
memory. -/
theorem c10_amended_wrap (e s : Nat)
    (h1 : 8 * 1024 * 1024 < (e &&& 0x1FFFFFFF) + TOTAL_RESERVED_SIZE)
    (h2 : s ≠ 0) (h3 : s < 0xE0000000) :
    0xE0000000 < stage2_max_size e ∧ stage2_effective_size e s = s := by
  have hx : e &&& 0x1FFFFFFF ≤ 0x1FFFFFFF := Nat.and_le_right
  have hm : 0xE0000000 < stage2_max_size e := by
    simp only [stage2_max_size, usub, TOTAL_RESERVED_SIZE, LOADER_SIZE] at h1 ⊢
    omega
  refine ⟨hm, ?_⟩
  have hcond : ¬ (s = 0 ∨ stage2_max_size e < s) := by
    push_neg
    exact ⟨h2, by omega⟩
  simp only [stage2_effective_size, if_neg hcond]

/-- Witness for the amended C10 at `entry = 0x9FFFFFFF`, `size = 4 MiB`. -/
theorem c10_amended_wrap_witness :
    0xE0000000 < stage2_max_size 0x9FFFFFFF
    ∧ stage2_effective_size 0x9FFFFFFF 0x400000 = 0x400000 :=
  c10_amended_wrap 0x9FFFFFFF 0x400000 (by decide) (by decide) (by decide)

theorem spWrDMA_rdram_eq (m : Mem) (r d w a : Nat) :
    (spWrDMA m r d w).rdram a =
      if d ≤ a ∧ a < d + sp_dma_decode_bytes w then rspRead m r (a - d)
      else m.rdram a := rfl

theorem spWrDMA_dmem_eq (m : Mem) (r d w : Nat) :
    (spWrDMA m r d w).dmem = m.dmem := rfl

theorem spRdDMA_rdram_eq (m : Mem) (r d w : Nat) :
    (spRdDMA m r d w).rdram = m.rdram := by
  unfold spRdDMA
  split <;> rfl

theorem rspRead_imem (m : Mem) (i : Nat) :
    rspRead m 0xA4001000 i = m.imem (i % 4096) := by
  unfold rspRead
  norm_num [Nat.shiftRight_eq_div_pow]

theorem spRdDMA_dmem_lo (m : Mem) (d a : Nat) :
    (spRdDMA m 0xA4000010 d (4096 - 16 - 1)).dmem a =
      if 16 ≤ a ∧ a < 4096 then m.rdram (d + (a - 16)) else m.dmem a := by
  unfold spRdDMA sp_dma_decode_bytes
  norm_num [Nat.shiftRight_eq_div_pow]

theorem spRdDMA_dmem_all (m : Mem) (d a : Nat) :
    (spRdDMA m 0xA4000000 d (4096 - 1)).dmem a =
      if a < 4096 then m.rdram (d + a) else m.dmem a := by
  unfold spRdDMA sp_dma_decode_bytes
  norm_num [Nat.shiftRight_eq_div_pow]

/-- C3: after the Stage 3 clear sequence, for any prior contents of the
reserved region and of DMEM, provided the two clear sources hold the value
`v` (IMEM, and the guaranteed-empty RDRAM area at `0x802000`), every byte of
the reserved loader region `[memsize - TOTAL_RESERVED_SIZE, memsize)` and
every byte of DMEM equals `v` — except that the normal variant preserves the
first 16 bytes of DMEM (the boot-flags area), while the compatibility variant
clears all 4096 bytes of DMEM. -/
theorem c3_clear_effect (c : Bool) (memsize v : Nat) (m : Mem)
    (hi : ∀ a, a < 4096 → m.imem a = v)
    (hr : ∀ a, 0x802000 ≤ a → a < 0x803000 → m.rdram a = v)
    (h1 : TOTAL_RESERVED_SIZE ≤ memsize) (h2 : memsize ≤ 0x802000) :
    (∀ a, memsize - TOTAL_RESERVED_SIZE ≤ a → a < memsize →
        (stage3_mem c memsize m).rdram a = v)
    ∧ (∀ a, (if c then 0 else 16) ≤ a → a < 4096 →
        (stage3_mem c memsize m).dmem a = v)
    ∧ (c = false → ∀ a, a < 16 →
        (stage3_mem c memsize m).dmem a = m.dmem a) := by
  have hT : TOTAL_RESERVED_SIZE = 32768 := rfl
  rw [hT] at h1
  have hu : usub memsize TOTAL_RESERVED_SIZE = memsize - 32768 := by
    simp only [usub, hT]
    omega
  have hdec : sp_dma_decode_bytes SP_WR_LEN_WORD = 32768 := by decide
  have hm1 : ∀ a, memsize - 32768 ≤ a → a < memsize →
      (spWrDMA m 0xA4001000 (usub memsize TOTAL_RESERVED_SIZE)
        SP_WR_LEN_WORD).rdram a = v := by
    intro a ha1 ha2
    rw [spWrDMA_rdram_eq, hu, hdec, if_pos ⟨ha1, by omega⟩, rspRead_imem]
    exact hi _ (Nat.mod_lt _ (by norm_num))
  have hm1out : ∀ a, 0x802000 ≤ a → a < 0x803000 →
      (spWrDMA m 0xA4001000 (usub memsize TOTAL_RESERVED_SIZE)
        SP_WR_LEN_WORD).rdram a = v := by
    intro a ha1 ha2
    rw [spWrDMA_rdram_eq, hu, hdec, if_neg (by omega)]
    exact hr a ha1 ha2
  cases c with
  | false =>
    have hM : stage3_mem false memsize m =
        spRdDMA (spWrDMA m 0xA4001000 (usub memsize TOTAL_RESERVED_SIZE)
          SP_WR_LEN_WORD) 0xA4000010 0x802000 (4096 - 16 - 1) := rfl
    refine ⟨?_, ?_, ?_⟩
    · intro a ha1 ha2
      rw [hT] at ha1
      rw [hM, spRdDMA_rdram_eq]
      exact hm1 a ha1 ha2
    · intro a ha1 ha2
      have ha3 : 16 ≤ a := ha1
      rw [hM, spRdDMA_dmem_lo, if_pos ⟨ha3, ha2⟩]
      exact hm1out _ (by omega) (by omega)
    · intro _ a ha
      rw [hM, spRdDMA_dmem_lo, if_neg (by omega)]
      rfl
  | true =>
    have hM : stage3_mem true memsize m =
        spRdDMA (spWrDMA m 0xA4001000 (usub memsize TOTAL_RESERVED_SIZE)
          SP_WR_LEN_WORD) 0xA4000000 0x802000 (4096 - 1) := by
      simp only [stage3_mem, if_true]
    refine ⟨?_, ?_, fun h => absurd h (by decide)⟩
    · intro a ha1 ha2
      rw [hT] at ha1
      rw [hM, spRdDMA_rdram_eq]
      exact hm1 a ha1 ha2
    · intro a ha1 ha2
      rw [hM, spRdDMA_dmem_all, if_pos ha2]
      exact hm1out _ (by omega) (by omega)

/-- Witness for C3 on a concrete pre-state (`mem0`) with dirty DMEM and dirty
RDRAM below `0x802000`, `memsize = 8 MiB`: the reserved region and DMEM come
out cleared, and the normal variant preserves the boot-flags bytes. -/
theorem c3_clear_effect_witness :
    (stage3_mem false 0x800000 mem0).rdram 0x7F8000 = 0
    ∧ (stage3_mem false 0x800000 mem0).dmem 16 = 0
    ∧ (stage3_mem false 0x800000 mem0).dmem 0 = 7
    ∧ (stage3_mem true 0x800000 mem0).dmem 0 = 0 := by
  have hsrc : ∀ a, 0x802000 ≤ a → a < 0x803000 → mem0.rdram a = 0 := by
    intro a hb _
    show (if 0x802000 ≤ a then 0 else 7) = 0
    rw [if_pos hb]
  have hfalse := c3_clear_effect false 0x800000 0 mem0
    (fun a _ => rfl) hsrc (by decide) (by decide)
  have htrue := c3_clear_effect true 0x800000 0 mem0
    (fun a _ => rfl) hsrc (by decide) (by decide)
  exact ⟨hfalse.1 0x7F8000 (by decide) (by decide),
         hfalse.2.1 16 (by decide) (by decide),
         (hfalse.2.2 rfl 0 (by decide)).trans rfl,
         htrue.2.1 0 (by decide) (by decide)⟩
